import Mathlib

/-!
Verification of the Log Analyzer ingestion gate (`src/main.py`).

The file embeds the `upload_log` request handler as a pure Lean function over
an explicit stream state, together with the Python string primitives it uses
(`str.lower`, `str.endswith`, `int(...)` on decimal strings, restricted to
ASCII input as the repository only deals in ASCII filenames and headers).
-/

set_option maxRecDepth 4000

namespace LogAnalyzer

/-- `MAX_FILE_SIZE = 20 * 1024 * 1024` from `src/main.py` line 11. -/
def MAX_FILE_SIZE : Nat := 20 * 1024 * 1024

/-- `ALLOWED_EXTENSIONS = (".txt", ".log", ".logfile", ".data")`, line 12. -/
def ALLOWED_EXTENSIONS : List String := [".txt", ".log", ".logfile", ".data"]

/-- Python `str.lower()` (ASCII model): lower-case every character. -/
def pyLower (s : String) : String := ⟨s.data.map Char.toLower⟩

/-- Python `str.upper()` (ASCII model): upper-case every character. -/
def pyUpper (s : String) : String := ⟨s.data.map Char.toUpper⟩

/-- Python `s.endswith(suffix)`: the characters of `suffix` end `s`. -/
def pyEndsWith (s suffix : String) : Bool := suffix.data.isSuffixOf s.data

/-- The admission condition of `src/main.py` line 53: the handler raises
HTTP 400 unless `file.filename` is truthy (non-empty) and
`file.filename.lower().endswith(ALLOWED_EXTENSIONS)` holds. -/
def checkExtension (filename : String) : Bool :=
  (filename != "") && ALLOWED_EXTENSIONS.any (fun ext => pyEndsWith (pyLower filename) ext)

/-- ASCII decimal digit test, as used by Python `int(...)` on ASCII input. -/
def isAsciiDigit (c : Char) : Bool := decide (c ≥ '0') && decide (c ≤ '9')

/-- Numeric value of an ASCII digit. -/
def digitVal (c : Char) : Nat := c.toNat - 48

/-- After an initial digit, Python `int` accepts `((underscore)? digit)*`. -/
def digitRunAux : List Char → Bool
  | [] => true
  | '_' :: rest =>
    match rest with
    | [] => false
    | c :: rest2 => isAsciiDigit c && digitRunAux rest2
  | c :: rest => isAsciiDigit c && digitRunAux rest

/-- Python `int` digit-part grammar: `digit ((underscore)? digit)*`. -/
def digitRun : List Char → Bool
  | [] => false
  | c :: rest => isAsciiDigit c && digitRunAux rest

/-- Value of a digit run, ignoring the underscore separators. -/
def digitsToNat (l : List Char) : Nat :=
  (l.filter (fun c => c != '_')).foldl (fun acc c => acc * 10 + digitVal c) 0

/-- Drop surrounding whitespace, as Python `int` does before parsing. -/
def stripChars (l : List Char) : List Char :=
  ((l.dropWhile Char.isWhitespace).reverse.dropWhile Char.isWhitespace).reverse

/-- Python `int(s)` on an ASCII string: optional surrounding whitespace, an
optional sign, then a digit run with optional single underscores between
digits.  `none` models the `ValueError` that `int` raises otherwise. -/
def pyIntParse (s : String) : Option Int :=
  let l := stripChars s.data
  match l with
  | '+' :: rest => if digitRun rest then some ((digitsToNat rest : Nat) : Int) else none
  | '-' :: rest => if digitRun rest then some (-((digitsToNat rest : Nat) : Int)) else none
  | _ => if digitRun l then some ((digitsToNat l : Nat) : Int) else none

/-- State of the uploaded file's byte stream (`file.file` in `src/main.py`):
its length in bytes, the read cursor, instrumentation counting the seek and
close calls performed on it, and a flag simulating an I/O fault on seek. -/
structure ByteStream where
  size : Nat
  pos : Nat
  seekCount : Nat
  closeCount : Nat
  failOnSeek : Bool
  deriving Repr, DecidableEq

/-- A freshly opened healthy stream of `n` bytes, cursor at the start. -/
def mkStream (n : Nat) : ByteStream :=
  { size := n, pos := 0, seekCount := 0, closeCount := 0, failOnSeek := false }

/-- `await file.file.seek(0, 2)` (line 76): move the cursor to end-of-stream.
Raises (models an I/O fault) when the stream is unseekable. -/
def seekEnd (s : ByteStream) : Except String ByteStream :=
  if s.failOnSeek then Except.error ("IOError")
  else Except.ok { s with pos := s.size, seekCount := s.seekCount + 1 }

/-- `await file.file.seek(0)` (line 87): move the cursor to the start. -/
def seekStart (s : ByteStream) : Except String ByteStream :=
  if s.failOnSeek then Except.error ("IOError")
  else Except.ok { s with pos := 0, seekCount := s.seekCount + 1 }

/-- `await file.file.tell()` (line 85): the current cursor offset. -/
def tell (s : ByteStream) : Nat := s.pos

/-- `await file.file.close()` (line 103). -/
def closeStream (s : ByteStream) : ByteStream :=
  { s with closeCount := s.closeCount + 1 }

/-- The Size Prober of `src/main.py` lines 76-87: seek to end-of-stream,
record the offset there as the actual size, seek back to offset 0. -/
def sizeProber (s : ByteStream) : Except String (Nat × ByteStream) := do
  let s1 ← seekEnd s
  let actual := tell s1
  let s2 ← seekStart s1
  pure (actual, s2)

/-- Outcome of the `try` block (lines 60-99) before the `finally` runs. -/
inductive TryOutcome where
  | done (actual_size : Nat)
  | httpExc (status : Nat) (detail : String)
  | pyExc (msg : String)
  deriving Repr, DecidableEq

/-- Detail string of the HTTP 400 raised at lines 54-57 (the f-string
renders the `ALLOWED_EXTENSIONS` tuple). -/
def invalid_detail : String :=
  "Invalid file type. Please upload (\x27.txt\x27, \x27.log\x27, \x27.logfile\x27, \x27.data\x27) files only."

/-- Detail string of both HTTP 413 rejections (lines 68 and 98). -/
def tooLarge_detail : String := "File too large (max 20MB)"

/-- Lines 76-99: run the Size Prober (an I/O fault there propagates) and
raise HTTP 413 when the probed actual size exceeds `MAX_FILE_SIZE`. -/
def probePhase (s : ByteStream) : TryOutcome × ByteStream :=
  match sizeProber s with
  | Except.error e => (TryOutcome.pyExc e, s)
  | Except.ok (actual, s2) =>
    if actual > MAX_FILE_SIZE then
      (TryOutcome.httpExc 413 tooLarge_detail, s2)
    else
      (TryOutcome.done actual, s2)

/-- The body of the `try` block, lines 60-99: read the declared
content-length if present (a `ValueError` from `int` propagates), fast-reject
a declared length over `MAX_FILE_SIZE`, otherwise probe the stream for its
actual size and reject that over `MAX_FILE_SIZE`. -/
def tryBlock (contentLength : Option String) (s : ByteStream) : TryOutcome × ByteStream :=
  match contentLength with
  | some cl =>
    match pyIntParse cl with
    | none => (TryOutcome.pyExc ("ValueError"), s)
    | some n =>
      if n > (MAX_FILE_SIZE : Int) then
        (TryOutcome.httpExc 413 tooLarge_detail, s)
      else
        probePhase s
  | none => probePhase s

/-- The observable result of one `POST /upload` request: the 201 success
body (the dict of line 105), an `HTTPException` with its status and detail,
or an uncaught Python exception propagating out of the handler. -/
inductive UploadResult where
  | ok (filename : String) (size_in_bytes : Nat)
  | httpError (status : Nat) (detail : String)
  | pyError (msg : String)
  deriving Repr, DecidableEq

/-- The `upload_log` handler of `src/main.py` lines 38-109, over a filename,
the optional `content-length` header, and the stream state.  The extension
check of line 53 runs before the `try`, so its HTTP 400 propagates without
touching the stream; everything inside the `try` reaches the `finally`,
which closes the stream before the result or exception leaves the handler. -/
def upload_log (filename : String) (contentLength : Option String) (s : ByteStream) :
    UploadResult × ByteStream :=
  if checkExtension filename then
    let (t, s1) := tryBlock contentLength s
    let s2 := closeStream s1
    match t with
    | TryOutcome.done actual => (UploadResult.ok filename actual, s2)
    | TryOutcome.httpExc st d => (UploadResult.httpError st d, s2)
    | TryOutcome.pyExc m => (UploadResult.pyError m, s2)
  else
    (UploadResult.httpError 400 invalid_detail, s)

/-- JSON-able values appearing in response bodies. -/
inductive PyVal where
  | str (s : String)
  | int (n : Int)
  deriving Repr, DecidableEq

/-- The response body as an association list: the success dict of lines
105-109, or FastAPI's detail wrapper for an `HTTPException`. -/
def response_body : UploadResult → List (String × PyVal)
  | UploadResult.ok fn sz => [("filename", PyVal.str fn), ("Size_in_Bytes", PyVal.int sz)]
  | UploadResult.httpError _ d => [("detail", PyVal.str d)]
  | UploadResult.pyError _ => [("detail", PyVal.str ("Internal Server Error"))]

/-- The HTTP status: 201 on success (the decorator of line 36), the
`HTTPException` status otherwise, 500 for an uncaught exception. -/
def http_status : UploadResult → Nat
  | UploadResult.ok _ _ => 201
  | UploadResult.httpError st _ => st
  | UploadResult.pyError _ => 500

/-- `checkSize` as the spec words it: accepted iff `0 ≤ n ≤ maxBytes`. -/
def checkSize_spec (n : Int) : Bool :=
  decide (0 ≤ n) && decide (n ≤ (MAX_FILE_SIZE : Int))

/-- Closed form of the Size Prober on a healthy and on a faulty stream. -/
theorem sizeProber_eq (s : ByteStream) :
    sizeProber s = if s.failOnSeek then Except.error ("IOError")
      else Except.ok (s.size, { s with pos := 0, seekCount := s.seekCount + 2 }) := by
  cases h : s.failOnSeek <;>
    simp [sizeProber, seekEnd, seekStart, tell, h, Except.bind, bind, pure, Except.pure,
      Nat.add_assoc]

/-- Closed form of the probing phase. -/
theorem probePhase_eq (s : ByteStream) :
    probePhase s = if s.failOnSeek then (TryOutcome.pyExc ("IOError"), s)
      else if s.size > MAX_FILE_SIZE then
        (TryOutcome.httpExc 413 tooLarge_detail, { s with pos := 0, seekCount := s.seekCount + 2 })
      else
        (TryOutcome.done s.size, { s with pos := 0, seekCount := s.seekCount + 2 }) := by
  cases h : s.failOnSeek <;> simp [probePhase, sizeProber_eq, h]

/-- Nothing inside the `try` block closes the stream. -/
theorem tryBlock_closeCount (cl : Option String) (s : ByteStream) :
    ((tryBlock cl s).2).closeCount = s.closeCount := by
  have probeCase : ∀ t : ByteStream, ((probePhase t).2).closeCount = t.closeCount := by
    intro t
    rw [probePhase_eq]
    split
    · rfl
    · split <;> rfl
  rcases cl with _ | str
  · simpa only [tryBlock] using probeCase s
  · simp only [tryBlock]
    cases hp : pyIntParse str with
    | none => rfl
    | some n =>
      show ((if n > (MAX_FILE_SIZE : Int) then (TryOutcome.httpExc 413 tooLarge_detail, s)
        else probePhase s).2).closeCount = s.closeCount
      split
      · rfl
      · exact probeCase s

/-- A normal completion of the `try` block carries a size within the limit. -/
theorem tryBlock_done_le (cl : Option String) (s : ByteStream) (a : Nat)
    (h : (tryBlock cl s).1 = TryOutcome.done a) : a ≤ MAX_FILE_SIZE := by
  have probeCase : ∀ t : ByteStream, (probePhase t).1 = TryOutcome.done a → a ≤ MAX_FILE_SIZE := by
    intro t ht
    rw [probePhase_eq] at ht
    split at ht
    · exact absurd ht (by simp)
    · split at ht
      · exact absurd ht (by simp)
      · simp only [Prod.fst] at ht
        cases ht
        omega
  rcases cl with _ | str
  · exact probeCase s h
  · simp only [tryBlock] at h
    cases hp : pyIntParse str with
    | none => rw [hp] at h; exact absurd h (by simp)
    | some n =>
      rw [hp] at h
      replace h : (if n > (MAX_FILE_SIZE : Int) then (TryOutcome.httpExc 413 tooLarge_detail, s)
        else probePhase s).1 = TryOutcome.done a := h
      split at h
      · exact absurd h (by simp)
      · exact probeCase s h

/-- Closed form of the handler: the extension gate, then the `try` body,
then the `finally` close, then the translation of the outcome. -/
theorem upload_log_eq (fn : String) (cl : Option String) (s : ByteStream) :
    upload_log fn cl s =
      if checkExtension fn then
        match tryBlock cl s with
        | (TryOutcome.done a, s1) => (UploadResult.ok fn a, closeStream s1)
        | (TryOutcome.httpExc st d, s1) => (UploadResult.httpError st d, closeStream s1)
        | (TryOutcome.pyExc m, s1) => (UploadResult.pyError m, closeStream s1)
      else (UploadResult.httpError 400 invalid_detail, s) := by
  rw [upload_log]
  split
  · cases ht : tryBlock cl s with
    | mk t s1 => cases t <;> rfl
  · rfl

/-- Every `HTTPException` escaping the `try` block is the 413 of lines
64-69 or 95-99, with the fixed too-large detail string. -/
theorem tryBlock_httpExc (cl : Option String) (s : ByteStream) (st : Nat) (d : String)
    (h : (tryBlock cl s).1 = TryOutcome.httpExc st d) :
    st = 413 ∧ d = tooLarge_detail := by
  have probeCase : ∀ t : ByteStream, (probePhase t).1 = TryOutcome.httpExc st d →
      st = 413 ∧ d = tooLarge_detail := by
    intro t ht
    rw [probePhase_eq] at ht
    split at ht
    · exact absurd ht (by simp)
    · split at ht
      · injection ht with h1 h2
        exact ⟨h1.symm, h2.symm⟩
      · exact absurd ht (by simp)
  rcases cl with _ | str
  · exact probeCase s h
  · simp only [tryBlock] at h
    cases hp : pyIntParse str with
    | none => rw [hp] at h; exact absurd h (by simp)
    | some n =>
      rw [hp] at h
      replace h : (if n > (MAX_FILE_SIZE : Int) then (TryOutcome.httpExc 413 tooLarge_detail, s)
        else probePhase s).1 = TryOutcome.httpExc st d := h
      split at h
      · injection h with h1 h2
        exact ⟨h1.symm, h2.symm⟩
      · exact probeCase s h

/-- Appending any string whose lower-casing is an allowed extension makes a
filename pass the extension check of line 53. -/
theorem checkExtension_of_suffix (f g e : String) (he : e ∈ ALLOWED_EXTENSIONS)
    (hmap : g.data.map Char.toLower = e.data) (hne : g.data ≠ []) :
    checkExtension (f ++ g) = true := by
  simp only [checkExtension, Bool.and_eq_true, bne_iff_ne, ne_eq, List.any_eq_true]
  constructor
  · intro hcontra
    have : (f ++ g).data = f.data ++ g.data := rfl
    rw [hcontra] at this
    exact hne (List.append_eq_nil.mp this.symm).2
  · refine ⟨e, he, ?_⟩
    have hdata : (pyLower (f ++ g)).data = (f.data.map Char.toLower) ++ e.data := by
      show ((f ++ g).data.map Char.toLower) = f.data.map Char.toLower ++ e.data
      rw [show (f ++ g).data = f.data ++ g.data from rfl, List.map_append, hmap]
    simp only [pyEndsWith, hdata]
    exact (List.isSuffixOf_iff_suffix).mpr (List.suffix_append _ _)

/-- C1 (counterexample): an upload rejected for its extension (here
`image.png`) leaves the handler without the stream's close ever having been
invoked, because the extension check of line 53 raises before the
`try`/`finally` of lines 60-103 is entered; the claim that the close
operation runs exactly once on every exit path fails on this path. -/
theorem C1_counterexample :
    (upload_log ("image.png") none (mkStream 100)).1 = UploadResult.httpError 400 invalid_detail ∧
    ((upload_log ("image.png") none (mkStream 100)).2).closeCount = 0 := by
  constructor <;> rfl

/-- C1 (amended): the stream's close operation is invoked exactly once
before `upload_log` returns or propagates on every exit path that enters the
`try` block — admission, `DeclaredTooLarge`, `ActualTooLarge`, a
`ValueError` from the content-length conversion, and an I/O fault during
probing — but it is not invoked at all on the `InvalidExtension` path,
whose exception is raised before the `try`/`finally` is entered. -/
theorem C1_close_exactly_once_after_extension_check (fn : String) (cl : Option String)
    (s : ByteStream) :
    ((upload_log fn cl s).2).closeCount =
      s.closeCount + (if checkExtension fn then 1 else 0) := by
  rw [upload_log]
  cases h : checkExtension fn
  · simp
  · simp only [if_true, if_pos]
    have hc := tryBlock_closeCount cl s
    cases ht : (tryBlock cl s) with
    | mk t s1 =>
      rw [ht] at hc
      cases t <;> simpa [closeStream] using hc

/-- C4: on any open seekable stream, whatever the cursor position, the Size
Prober of lines 76-87 reports exactly the stream's byte count and leaves the
cursor at offset 0 (having performed its two seeks and no close). -/
theorem C4_size_prober (s : ByteStream) (h : s.failOnSeek = false) :
    sizeProber s =
      Except.ok (s.size, { s with pos := 0, seekCount := s.seekCount + 2 }) := by
  rw [sizeProber_eq, h]
  rfl

/-- C4 (witness): a 7-byte stream whose cursor sits at offset 3 is probed to
size 7 with the cursor back at 0. -/
theorem C4_size_prober_witness :
    sizeProber { size := 7, pos := 3, seekCount := 0, closeCount := 0, failOnSeek := false } =
      Except.ok
        (7, { size := 7, pos := 0, seekCount := 2, closeCount := 0, failOnSeek := false }) :=
  C4_size_prober
    { size := 7, pos := 3, seekCount := 0, closeCount := 0, failOnSeek := false } rfl

/-- C7 (Scenario A): filename `app.log`, no declared length, a 100-byte
stream: the request is admitted, the HTTP status is 201, and the body is
exactly the dict with `filename` mapped to `app.log` and `Size_in_Bytes`
mapped to the probed length 100. -/
theorem C7_scenarioA :
    (upload_log ("app.log") none (mkStream 100)).1 = UploadResult.ok ("app.log") 100 ∧
    http_status ((upload_log ("app.log") none (mkStream 100)).1) = 201 ∧
    response_body ((upload_log ("app.log") none (mkStream 100)).1) =
      [("filename", PyVal.str ("app.log")), ("Size_in_Bytes", PyVal.int 100)] := by
  refine ⟨rfl, rfl, rfl⟩

/-- C10: a filename that is nothing but an allowed extension (`.log`,
`.txt`) passes the extension check of line 53 — the check is a pure suffix
test — so such an upload is not rejected with `InvalidExtension` and is
admitted when its size is within bounds. -/
theorem C10_bare_extension_filename :
    checkExtension (".log") = true ∧ checkExtension (".txt") = true ∧
    (upload_log (".log") none (mkStream 100)).1 = UploadResult.ok (".log") 100 ∧
    (upload_log (".log") none (mkStream 100)).1 ≠ UploadResult.httpError 400 invalid_detail := by
  refine ⟨rfl, rfl, rfl, by decide⟩

/-- C2: whenever the gate admits a request (returns the success dict rather
than a rejection), the reported size is at most `MAX_FILE_SIZE`, the
reported filename is the request filename, and that filename passed the
check of line 53: it is non-empty and its lower-cased form ends in one of
the `ALLOWED_EXTENSIONS`. -/
theorem C2_admitted_invariant (fn : String) (cl : Option String) (s : ByteStream)
    (fn2 : String) (sz : Nat)
    (h : (upload_log fn cl s).1 = UploadResult.ok fn2 sz) :
    sz ≤ MAX_FILE_SIZE ∧ fn2 = fn ∧ checkExtension fn = true ∧
      fn ≠ "" ∧ ∃ ext ∈ ALLOWED_EXTENSIONS, pyEndsWith (pyLower fn) ext = true := by
  rw [upload_log_eq] at h
  by_cases hext : checkExtension fn = true
  · rw [if_pos hext] at h
    cases ht : tryBlock cl s with
    | mk t s1 =>
      rw [ht] at h
      cases t with
      | done a =>
        injection h with h1 h2
        have hle : a ≤ MAX_FILE_SIZE := tryBlock_done_le cl s a (by rw [ht])
        have hfacts := hext
        simp only [checkExtension, Bool.and_eq_true, bne_iff_ne, ne_eq,
          List.any_eq_true] at hfacts
        exact ⟨h2 ▸ hle, h1.symm, hext, hfacts.1, hfacts.2⟩
      | httpExc st d => exact absurd h (by simp)
      | pyExc m => exact absurd h (by simp)
  · rw [if_neg hext] at h
    exact absurd h (by simp)

/-- C2 (witness): the admitted Scenario A upload satisfies the admission
invariant. -/
theorem C2_admitted_invariant_witness :
    100 ≤ MAX_FILE_SIZE ∧ ("app.log" : String) = ("app.log" : String) ∧
    checkExtension ("app.log") = true ∧ ("app.log" : String) ≠ "" ∧
    ∃ ext ∈ ALLOWED_EXTENSIONS, pyEndsWith (pyLower ("app.log")) ext = true :=
  C2_admitted_invariant ("app.log") none (mkStream 100) ("app.log") 100 rfl

/-- C3: when the filename passes the extension check and the declared
content-length parses to a value over `MAX_FILE_SIZE`, the gate raises the
413 of lines 64-69 with the too-large detail, performs no seek on the
stream (the Size Prober never runs, whatever the stream's actual size), and
still closes the stream exactly once in the `finally`; since this branch
precedes the probing of lines 76-99, the declared-length rejection is the
one reported even when the actual size would also fail. -/
theorem C3_declared_fast_path (fn str : String) (n : Int) (s : ByteStream)
    (hext : checkExtension fn = true) (hparse : pyIntParse str = some n)
    (hbig : (MAX_FILE_SIZE : Int) < n) :
    (upload_log fn (some str) s).1 = UploadResult.httpError 413 tooLarge_detail ∧
    ((upload_log fn (some str) s).2).seekCount = s.seekCount ∧
    ((upload_log fn (some str) s).2).closeCount = s.closeCount + 1 := by
  have htb : tryBlock (some str) s = (TryOutcome.httpExc 413 tooLarge_detail, s) := by
    simp only [tryBlock, hparse]
    rw [if_pos hbig]
  refine ⟨?_, ?_, ?_⟩ <;> simp [upload_log_eq, hext, htb, closeStream]

/-- C3 (witness): Scenario C — `big.txt` with declared length 25,000,000
over a 100-byte stream is rejected 413 with no seek and one close. -/
theorem C3_declared_fast_path_witness :
    (upload_log ("big.txt") (some ("25000000")) (mkStream 100)).1 =
      UploadResult.httpError 413 tooLarge_detail ∧
    ((upload_log ("big.txt") (some ("25000000")) (mkStream 100)).2).seekCount =
      (mkStream 100).seekCount ∧
    ((upload_log ("big.txt") (some ("25000000")) (mkStream 100)).2).closeCount =
      (mkStream 100).closeCount + 1 :=
  C3_declared_fast_path ("big.txt") ("25000000") 25000000 (mkStream 100)
    (by decide) (by decide) (by decide)

/-- C5 (counterexample): the claim says a negative size is rejected by the
size checks, but the code only tests `> MAX_FILE_SIZE` (lines 65 and 95): a
declared content-length of `-1` passes the declared-length check and the
upload is admitted. -/
theorem C5_counterexample :
    pyIntParse ("-1") = some (-1) ∧
    (upload_log ("a.log") (some ("-1")) (mkStream 100)).1 =
      UploadResult.ok ("a.log") 100 := by
  exact ⟨by decide, rfl⟩

/-- C5 (amended): both size checks accept a size `n` iff `n ≤ MAX_FILE_SIZE`
with no lower bound — `MAX_FILE_SIZE` is accepted, `MAX_FILE_SIZE + 1` is
rejected, `0` is accepted, and a negative declared length is accepted, not
rejected.  The first conjunct settles the declared-length branch over any
parsed value, the second the actual-length branch over any stream size. -/
theorem C5_size_check_upper_bound_only (str : String) (n : Int) (m : Nat)
    (hparse : pyIntParse str = some n) (hm : m ≤ MAX_FILE_SIZE) :
    ((upload_log ("a.log") (some str) (mkStream m)).1 =
      if (MAX_FILE_SIZE : Int) < n then UploadResult.httpError 413 tooLarge_detail
      else UploadResult.ok ("a.log") m) ∧
    (∀ k : Nat, (upload_log ("a.log") none (mkStream k)).1 =
      if MAX_FILE_SIZE < k then UploadResult.httpError 413 tooLarge_detail
      else UploadResult.ok ("a.log") k) := by
  have hext : checkExtension ("a.log") = true := by decide
  have hprobe : ∀ k : Nat, probePhase (mkStream k) =
      if MAX_FILE_SIZE < k then
        (TryOutcome.httpExc 413 tooLarge_detail,
          { size := k, pos := 0, seekCount := 2, closeCount := 0, failOnSeek := false })
      else
        (TryOutcome.done k,
          { size := k, pos := 0, seekCount := 2, closeCount := 0, failOnSeek := false }) := by
    intro k
    rw [probePhase_eq]
    simp [mkStream]
  constructor
  · by_cases hn : (MAX_FILE_SIZE : Int) < n
    · have htb : tryBlock (some str) (mkStream m) =
          (TryOutcome.httpExc 413 tooLarge_detail, mkStream m) := by
        simp only [tryBlock, hparse]
        rw [if_pos hn]
      simp [upload_log_eq, hext, htb, hn]
    · have htb : tryBlock (some str) (mkStream m) = probePhase (mkStream m) := by
        simp only [tryBlock, hparse]
        rw [if_neg hn]
      have hm2 : ¬ MAX_FILE_SIZE < m := Nat.not_lt.mpr hm
      simp [upload_log_eq, hext, htb, hprobe m, hm2, hn]
  · intro k
    have htb : tryBlock none (mkStream k) = probePhase (mkStream k) := rfl
    by_cases hk : MAX_FILE_SIZE < k
    · simp [upload_log_eq, hext, htb, hprobe k, hk]
    · simp [upload_log_eq, hext, htb, hprobe k, hk]

/-- C5 (witness): at the boundary, a declared length of `MAX_FILE_SIZE + 1`
(20,971,521) on an empty stream is rejected by the declared-length branch. -/
theorem C5_size_check_witness :
    ((upload_log ("a.log") (some ("20971521")) (mkStream 0)).1 =
      if (MAX_FILE_SIZE : Int) < 20971521 then UploadResult.httpError 413 tooLarge_detail
      else UploadResult.ok ("a.log") 0) ∧
    (∀ k : Nat, (upload_log ("a.log") none (mkStream k)).1 =
      if MAX_FILE_SIZE < k then UploadResult.httpError 413 tooLarge_detail
      else UploadResult.ok ("a.log") k) :=
  C5_size_check_upper_bound_only ("20971521") 20971521 0 (by decide) (by decide)

/-- C6: the extension check accepts exactly the non-empty filenames whose
lower-cased form ends in an allowed extension; appending an allowed suffix
in upper or lower case to any base name is accepted; the empty filename is
rejected with the 400 `InvalidExtension` response. -/
theorem C6_extension_check :
    (∀ fn : String, checkExtension fn = true ↔
      (fn ≠ "" ∧ ∃ ext ∈ ALLOWED_EXTENSIONS, pyEndsWith (pyLower fn) ext = true)) ∧
    (∀ f e : String, e ∈ ALLOWED_EXTENSIONS →
      checkExtension (f ++ pyUpper e) = true ∧ checkExtension (f ++ pyLower e) = true) ∧
    (∀ (cl : Option String) (s : ByteStream),
      (upload_log ("") cl s).1 = UploadResult.httpError 400 invalid_detail ∧
      http_status ((upload_log ("") cl s).1) = 400) := by
  refine ⟨?_, ?_, ?_⟩
  · intro fn
    simp [checkExtension, List.any_eq_true, bne_iff_ne]
  · intro f e he
    have hmem : e = ".txt" ∨ e = ".log" ∨ e = ".logfile" ∨ e = ".data" := by
      simpa [ALLOWED_EXTENSIONS] using he
    constructor
    · refine checkExtension_of_suffix f (pyUpper e) e he ?_ ?_ <;>
        (rcases hmem with rfl | rfl | rfl | rfl <;> decide)
    · refine checkExtension_of_suffix f (pyLower e) e he ?_ ?_ <;>
        (rcases hmem with rfl | rfl | rfl | rfl <;> decide)
  · intro cl s
    exact ⟨rfl, rfl⟩

/-- C6 (witness): `app` + `.LOG` and `app` + `.log` are both accepted. -/
theorem C6_extension_check_witness :
    checkExtension ("app" ++ pyUpper (".log")) = true ∧
    checkExtension ("app" ++ pyLower (".log")) = true :=
  C6_extension_check.2.1 ("app") (".log") (by decide)

/-- C8: every `HTTPException` leaving the handler carries a concrete
detail — the 400 names the allowed extension set (each allowed extension
occurs verbatim in the detail string) and the 413 carries the fixed
too-large detail; neither detail is empty. -/
theorem C8_rejection_details :
    (∀ (fn : String) (cl : Option String) (s : ByteStream) (st : Nat) (d : String),
      (upload_log fn cl s).1 = UploadResult.httpError st d →
      (st = 400 ∧ d = invalid_detail) ∨ (st = 413 ∧ d = tooLarge_detail)) ∧
    (∀ ext ∈ ALLOWED_EXTENSIONS, ext.data <:+: invalid_detail.data) ∧
    invalid_detail ≠ "" ∧ tooLarge_detail ≠ "" := by
  refine ⟨?_, by decide, by decide, by decide⟩
  intro fn cl s st d h
  rw [upload_log_eq] at h
  by_cases hext : checkExtension fn = true
  · rw [if_pos hext] at h
    cases ht : tryBlock cl s with
    | mk t s1 =>
      rw [ht] at h
      cases t with
      | done a => exact absurd h (by simp)
      | httpExc st2 d2 =>
        injection h with h1 h2
        refine Or.inr ?_
        have := tryBlock_httpExc cl s st2 d2 (by rw [ht])
        exact ⟨h1 ▸ this.1, h2 ▸ this.2⟩
      | pyExc m => exact absurd h (by simp)
  · rw [if_neg hext] at h
    injection h with h1 h2
    exact Or.inl ⟨h1.symm, h2.symm⟩

/-- C8 (witness): the `image.png` rejection is the 400 with the
extension-set detail. -/
theorem C8_rejection_details_witness :
    (400 = 400 ∧ invalid_detail = invalid_detail) ∨
    (400 = 413 ∧ invalid_detail = tooLarge_detail) :=
  C8_rejection_details.1 ("image.png") none (mkStream 0) 400 invalid_detail rfl

/-- C9: a present but non-numeric content-length makes `int(...)` at line 65
raise a `ValueError`, which is not one of the typed `HTTPException`
rejections, and because the conversion happens inside the `try`, the
`finally` still closes the stream exactly once before the error
propagates. -/
theorem C9_bad_content_length (fn str : String) (s : ByteStream)
    (hext : checkExtension fn = true) (hparse : pyIntParse str = none) :
    (upload_log fn (some str) s).1 = UploadResult.pyError ("ValueError") ∧
    ((upload_log fn (some str) s).2).closeCount = s.closeCount + 1 := by
  have htb : tryBlock (some str) s = (TryOutcome.pyExc ("ValueError"), s) := by
    simp only [tryBlock, hparse]
  constructor <;> simp [upload_log_eq, hext, htb, closeStream]

/-- C9 (witness): content-length `abc` on a valid `a.log` upload raises
`ValueError` with the stream closed once. -/
theorem C9_bad_content_length_witness :
    (upload_log ("a.log") (some ("abc")) (mkStream 5)).1 =
      UploadResult.pyError ("ValueError") ∧
    ((upload_log ("a.log") (some ("abc")) (mkStream 5)).2).closeCount =
      (mkStream 5).closeCount + 1 :=
  C9_bad_content_length ("a.log") ("abc") (mkStream 5) (by decide) (by decide)

end LogAnalyzer
